import Mathlib

/-!
Verification development for the stock-sniper repository.

The definitions below are shallow embeddings of the TypeScript source:
JavaScript numbers carrying prices become rationals, JS truthiness of
optional values is modelled explicitly, fallible operations return
Option/Except, and the asynchronous cron cycle becomes explicit state
passing over lists.  Each definition names the source function it embeds.
-/

/-! ## JavaScript-style helpers -/

/-- JS truthiness of an optional number: null/undefined and 0 are falsy. -/
def truthyQ : Option ℚ → Bool
  | none => false
  | some q => q != 0

/-- JS a || b on optional numbers (0 falls through to b). -/
def jsOrQ (a b : Option ℚ) : Option ℚ := if truthyQ a then a else b

/-- JS truthiness of an optional string: null/undefined and the empty string are falsy. -/
def truthyS : Option String → Bool
  | none => false
  | some s => s != ("")

/-- JS a || b where b is a plain string default. -/
def jsOrS (a : Option String) (b : String) : String :=
  if truthyS a then a.getD ("") else b

/-- JS a || b on optional strings. -/
def jsOrSOpt (a b : Option String) : Option String := if truthyS a then a else b

/-- JS template interpolation of an optional boolean. -/
def optBoolStr : Option Bool → String
  | some true => ("true")
  | some false => ("false")
  | none => ("undefined")

/-- Does the first list start with the second (character-wise)? -/
def leadsWith : List Char → List Char → Bool
  | [], _ => true
  | _ :: _, [] => false
  | p :: ps, c :: cs => p == c && leadsWith ps cs

/-- Does the haystack contain the needle as a contiguous run (JS String.includes)? -/
def containsSeq (sub : List Char) : List Char → Bool
  | [] => sub.isEmpty
  | c :: cs => leadsWith sub (c :: cs) || containsSeq sub cs

/-- JS s.includes(sub). -/
def containsSub (s sub : String) : Bool := containsSeq sub.toList s.toList

/-- First some in a list of options: models a for-loop that breaks on the
first source yielding a parsed value. -/
def firstSome {α : Type} : List (Option α) → Option α
  | [] => none
  | some a :: _ => some a
  | none :: rest => firstSome rest

/-! ## Resolution result contract

`StockResult` from src/lib/target/stock-check.ts (the same shape is built
inline in the cron route). -/

structure StockResult where
  in_stock : Bool
  price : Option ℚ
  product_name : String
  product_image_url : Option String
  raw_status : String
deriving Repr, DecidableEq

/-- JS regex scan: first position where the literal pattern is followed by at
least one digit; returns the maximal digit run (the capture of /pat(\d+)/). -/
def findDigitsAfter (pat : List Char) : List Char → Option String
  | [] => none
  | c :: cs =>
    if leadsWith pat (c :: cs) then
      let ds := ((c :: cs).drop pat.length).takeWhile Char.isDigit
      if ds.isEmpty then findDigitsAfter pat cs else some (String.mk ds)
    else findDigitsAfter pat cs

/-- extractTcin (route.ts 265-271 and lib/target/stock-check.ts 27-33):
first /A-(\d+)/ match, else first /preselect=(\d+)/ match, else null. -/
def extractTcin (url : String) : Option String :=
  match findDigitsAfter (("A-").toList) url.toList with
  | some t => some t
  | none => findDigitsAfter (("preselect=").toList) url.toList

/-! ## Structural model of the Redsky JSON payloads

A response body is dynamic JSON; the parsers only read the paths modelled
here (absent path = none).  `formatted_current_price` and
`formatted_default_price` stand for the numeric content of the formatted
price strings (present iff the string is truthy); the parseFloat string
munging itself is not load-bearing for any claim. -/

structure ProductJson where
  title : Option String := none
  image : Option String := none
  current_retail : Option ℚ := none
  reg_retail : Option ℚ := none
  current_retail_min : Option ℚ := none
  formatted_current_price : Option ℚ := none
  formatted_default_price : Option ℚ := none
  ship_status : Option String := none
  pickup_statuses : List (Option String) := []
  delivery_status : Option String := none
  oos_all : Option Bool := none
  item_is_buyable : Option Bool := none
  is_buyable : Option Bool := none
  availability_status : Option String := none
deriving Repr, DecidableEq

structure RedskyJson where
  product : Option ProductJson := none
  product_summaries : List ProductJson := []
deriving Repr, DecidableEq

/-- fmtStatus (identical in route.ts 340-345 and stock-check.ts 381-386). -/
def fmtStatus (ship pickup : Option String) : String :=
  let parts : List String :=
    (if truthyS ship then [("Ship: ") ++ ship.getD ("")] else [])
    ++ (if truthyS pickup then [("Pickup: ") ++ pickup.getD ("")] else [])
  if parts.isEmpty then ("Unknown") else String.intercalate (" | ") parts

namespace CronRoute

/-- isAvailable (route.ts 336-338): exact match on two statuses. -/
def isAvailable : Option String → Bool
  | none => false
  | some s => s == ("IN_STOCK") || s == ("LIMITED_STOCK")

/-- parseFulfillment (route.ts 324-334). -/
def parseFulfillment (data : RedskyJson) (tcin : String) : Option StockResult :=
  match data.product with
  | none => none
  | some product =>
    let name := jsOrS product.title (("Target Product ") ++ tcin)
    let img := jsOrSOpt product.image none
    let price := jsOrQ product.current_retail (jsOrQ product.reg_retail none)
    let ship := product.ship_status
    let pickups := product.pickup_statuses
    let inStock := isAvailable ship || pickups.any isAvailable
    some { in_stock := inStock, price := price, product_name := name,
           product_image_url := img, raw_status := fmtStatus ship (pickups.headD none) }

/-- parseSummary (route.ts 308-322). -/
def parseSummary (data : RedskyJson) (tcin : String) : Option StockResult :=
  match data.product_summaries.head? with
  | none =>
    match data.product with
    | some _ => parseFulfillment data tcin
    | none => none
  | some p =>
    let name := jsOrS p.title (("Target Product ") ++ tcin)
    let img := jsOrSOpt p.image none
    let price := jsOrQ p.current_retail (jsOrQ p.reg_retail none)
    let ship := p.ship_status
    let pickup := p.pickup_statuses.headD none
    some { in_stock := isAvailable ship || isAvailable pickup, price := price,
           product_name := name, product_image_url := img,
           raw_status := fmtStatus ship pickup }

/-- The cron route's inline checkTargetStock (route.ts 281-306): two
structured endpoints, no HTML fallback.  Each argument is the endpoint's
fetch outcome (none = thrown/timeout/non-OK, which tryFetch turns into null). -/
def checkTargetStock (summaryResp fulfillResp : Option RedskyJson) (tcin : String) :
    Except String StockResult :=
  let step1 : Option StockResult :=
    match summaryResp with
    | some data => parseSummary data tcin
    | none => none
  match step1 with
  | some r => Except.ok r
  | none =>
    let step2 : Option StockResult :=
      match fulfillResp with
      | some data => parseFulfillment data tcin
      | none => none
    match step2 with
    | some r => Except.ok r
    | none => Except.error (("All Target API endpoints failed for TCIN ") ++ tcin)

end CronRoute

namespace StockLib

/-- isAvailable (stock-check.ts 374-379): uppercase match on six statuses. -/
def isAvailable : Option String → Bool
  | none => false
  | some s =>
    if s == ("") then false
    else
      let u := s.toUpper
      u == ("IN_STOCK") || u == ("LIMITED_STOCK") || u == ("AVAILABLE")
        || u == ("PRE_ORDER") || u == ("READY_WITHIN_2HRS") || u == ("ONLINE_AVAILABLE")

/-- parsePdpClientResponse (stock-check.ts 137-187). -/
def parsePdpClientResponse (data : RedskyJson) (tcin : String) : Option StockResult :=
  match data.product with
  | none => none
  | some product =>
    let name := jsOrS product.title (("Target Product ") ++ tcin)
    let img := jsOrSOpt product.image none
    let price := jsOrQ product.current_retail (jsOrQ product.reg_retail
      (jsOrQ product.current_retail_min (jsOrQ product.formatted_current_price none)))
    let ship := product.ship_status
    let pickup0 := product.pickup_statuses.headD none
    let delivery := product.delivery_status
    let oosAll := product.oos_all
    let isBuyable := product.item_is_buyable
    let inStock :=
      if oosAll == some true then false
      else isAvailable ship || isAvailable pickup0 || isAvailable delivery
        || isBuyable == some true
        || (!price.isNone && !truthyS ship && !truthyS pickup0 && !truthyS delivery
            && !(oosAll == some true))
    let statusParts : List String :=
      (if truthyS ship then [("Ship: ") ++ ship.getD ("")] else [])
      ++ (if truthyS pickup0 then [("Pickup: ") ++ pickup0.getD ("")] else [])
      ++ (if truthyS delivery then [("Delivery: ") ++ delivery.getD ("")] else [])
      ++ (if oosAll != none then [("OOS-All: ") ++ optBoolStr oosAll] else [])
      ++ (if isBuyable != none then [("Buyable: ") ++ optBoolStr isBuyable] else [])
      ++ (if !truthyS ship && !truthyS pickup0 && !truthyS delivery && !price.isNone
          then [("Inferred: has price")] else [])
    some { in_stock := inStock, price := price, product_name := name,
           product_image_url := img,
           raw_status := if statusParts.isEmpty then ("Unknown")
                         else String.intercalate (" | ") statusParts }

/-- parseFulfillmentResponse (stock-check.ts 229-275). -/
def parseFulfillmentResponse (data : RedskyJson) (tcin : String) : Option StockResult :=
  match data.product with
  | none => none
  | some product =>
    let name := jsOrS product.title (("Target Product ") ++ tcin)
    let img := jsOrSOpt product.image none
    let price := jsOrQ product.current_retail (jsOrQ product.reg_retail none)
    let ship := product.ship_status
    let pickup0 := product.pickup_statuses.headD none
    let pickups := product.pickup_statuses
    let delivery := product.delivery_status
    let oosEverywhere := product.oos_all
    let productAvail := product.availability_status
    let isOnline := product.is_buyable
    let inStock :=
      if oosEverywhere == some true then false
      else isAvailable ship || pickups.any isAvailable || isAvailable delivery
        || isAvailable productAvail || isOnline == some true
    let statusParts : List String :=
      (if truthyS ship then [("Ship: ") ++ ship.getD ("")] else [])
      ++ (if truthyS pickup0 then [("Pickup: ") ++ pickup0.getD ("")] else [])
      ++ (if truthyS delivery then [("Delivery: ") ++ delivery.getD ("")] else [])
      ++ (if truthyS productAvail then [("Product: ") ++ productAvail.getD ("")] else [])
      ++ (if isOnline != none then [("Buyable: ") ++ optBoolStr isOnline] else [])
      ++ (if oosEverywhere != none then [("OOS-All: ") ++ optBoolStr oosEverywhere] else [])
    some { in_stock := inStock, price := price, product_name := name,
           product_image_url := img,
           raw_status := if statusParts.isEmpty then ("Unknown")
                         else String.intercalate (" | ") statusParts }

/-- parseSummaryResponse (stock-check.ts 201-227). -/
def parseSummaryResponse (data : RedskyJson) (tcin : String) : Option StockResult :=
  match data.product_summaries.head? with
  | none =>
    match data.product with
    | some _ => parseFulfillmentResponse data tcin
    | none => none
  | some p =>
    let name := jsOrS p.title (("Target Product ") ++ tcin)
    let img := jsOrSOpt p.image none
    let price :=
      match p.formatted_default_price with
      | some q => some q
      | none => jsOrQ p.current_retail (jsOrQ p.reg_retail none)
    let ship := p.ship_status
    let pickup := p.pickup_statuses.headD none
    some { in_stock := isAvailable ship || isAvailable pickup, price := price,
           product_name := name, product_image_url := img,
           raw_status := fmtStatus ship pickup }

/-- JSON-LD offers object as read by the scraper. -/
structure LdOffer where
  availability : Option String := none
  price : Option ℚ := none
deriving Repr, DecidableEq

/-- JSON-LD blob as read by the scraper (isProduct models @type === Product). -/
structure LdJson where
  isProduct : Bool := false
  name : Option String := none
  image : Option String := none
  offers : Option LdOffer := none
deriving Repr, DecidableEq

/-- The extraction layers of one fetched product page.  `tgtProduct` is the
first product object found among the embedded page-state query blobs;
`priceText`/`titleText` are the regex captures of the last-resort scrape;
`oosText` records whether the out-of-stock/sold-out text heuristic matched. -/
structure HtmlPage where
  tgtProduct : Option ProductJson := none
  jsonLd : Option LdJson := none
  priceText : Option ℚ := none
  titleText : Option String := none
  oosText : Bool := false
deriving Repr, DecidableEq

/-- parseTgtData (stock-check.ts 347-372) applied to the first embedded
product found (the loop over preloaded queries). -/
def parseTgtData (p : Option ProductJson) (tcin : String) : Option StockResult :=
  match p with
  | none => none
  | some product =>
    let name := jsOrS product.title (("Target Product ") ++ tcin)
    let img := jsOrSOpt product.image none
    let price := jsOrQ product.current_retail (jsOrQ product.reg_retail none)
    let ship := product.ship_status
    let pickups := product.pickup_statuses
    some { in_stock := isAvailable ship || pickups.any isAvailable, price := price,
           product_name := name, product_image_url := img,
           raw_status := fmtStatus ship (pickups.headD none) }

/-- title.replace(/ : Target$/, "").trim() from the last-resort scrape. -/
def stripTargetSuffix (t : String) : String :=
  let cs := t.toList
  let suf := (" : Target").toList
  let cs' := if leadsWith suf.reverse cs.reverse then cs.take (cs.length - suf.length) else cs
  (String.mk cs').trim

/-- The JSON-LD branch of scrapeProductPage (stock-check.ts 310-324). -/
def ldResult (ld : Option LdJson) (tcin : String) : Option StockResult :=
  match ld with
  | none => none
  | some l =>
    if l.isProduct || truthyS l.name then
      some { in_stock :=
               (match l.offers with
                | some o => match o.availability with
                            | some a => containsSub a ("InStock")
                            | none => false
                | none => false),
             price := l.offers.bind (fun o => o.price),
             product_name := jsOrS l.name (("Target Product ") ++ tcin),
             product_image_url := jsOrSOpt l.image none,
             raw_status := ("LD: ") ++ jsOrS (l.offers.bind (fun o => o.availability)) ("Unknown") }
    else none

/-- scrapeProductPage (stock-check.ts 277-345): embedded page-state blob,
then JSON-LD, then text heuristics; none when the fetch failed or nothing
was extracted. -/
def scrapeProductPage (page : Option HtmlPage) (tcin : String) : Option StockResult :=
  match page with
  | none => none
  | some pg =>
    match parseTgtData pg.tgtProduct tcin with
    | some r => some r
    | none =>
      match ldResult pg.jsonLd tcin with
      | some r => some r
      | none =>
        if pg.priceText.isSome || pg.titleText.isSome then
          some { in_stock := !pg.oosText,
                 price := pg.priceText,
                 product_name :=
                   (match pg.titleText with
                    | some t => stripTargetSuffix t
                    | none => ("Target Product ") ++ tcin),
                 product_image_url := none,
                 raw_status := if pg.oosText then ("HTML: Out of Stock")
                               else ("HTML: Possibly Available") }
        else none

/-- One resolution's upstream world: the fetch outcome of each ranked
endpoint (none = failure/timeout/non-OK) and the product page for the
HTML fallback. -/
structure Upstream where
  pdp1 : Option RedskyJson := none
  pdp2 : Option RedskyJson := none
  ful1 : Option RedskyJson := none
  ful2 : Option RedskyJson := none
  ful3 : Option RedskyJson := none
  page : Option HtmlPage := none
deriving Repr, DecidableEq

/-- Step 1 of checkTargetStock (stock-check.ts 45-52): first pdp_client
endpoint whose fetch succeeded and whose parse produced a result. -/
def productInfoOf (env : Upstream) (tcin : String) : Option StockResult :=
  firstSome [env.pdp1.bind (fun d => parsePdpClientResponse d tcin),
             env.pdp2.bind (fun d => parsePdpClientResponse d tcin)]

/-- Keep a parsed fulfillment result only when its status is informative
(stock-check.ts 68: parsed.raw_status !== Unknown). -/
def usableFulfill : Option StockResult → Option StockResult
  | some r => if r.raw_status != ("Unknown") then some r else none
  | none => none

/-- Step 2 of checkTargetStock (stock-check.ts 61-73): first fulfillment
endpoint yielding a non-Unknown parse (summary endpoint first, then the
two pdp_fulfillment endpoints). -/
def fulfillmentInfoOf (env : Upstream) (tcin : String) : Option StockResult :=
  firstSome [usableFulfill (env.ful1.bind (fun d => parseSummaryResponse d tcin)),
             usableFulfill (env.ful2.bind (fun d => parseFulfillmentResponse d tcin)),
             usableFulfill (env.ful3.bind (fun d => parseFulfillmentResponse d tcin))]

/-- The shared resolver checkTargetStock (stock-check.ts 35-126): merge,
fulfillment-only, price-present inference with HTML confirmation, full HTML
fallback, and the final throw when everything is exhausted. -/
def checkTargetStock (env : Upstream) (tcin : String) : Except String StockResult :=
  match productInfoOf env tcin, fulfillmentInfoOf env tcin with
  | some pi, some fi =>
    Except.ok { in_stock := fi.in_stock,
                price := jsOrQ pi.price fi.price,
                product_name := pi.product_name,
                product_image_url := jsOrSOpt pi.product_image_url fi.product_image_url,
                raw_status := fi.raw_status }
  | none, some fi =>
    if fi.raw_status != ("Unknown") then Except.ok fi
    else
      match scrapeProductPage env.page tcin with
      | some r => Except.ok r
      | none => Except.error (("All Target API endpoints and HTML scrape failed for TCIN ") ++ tcin ++ ("."))
  | some pi, none =>
    if !pi.price.isNone then
      match scrapeProductPage env.page tcin with
      | some htmlResult =>
        Except.ok { in_stock := htmlResult.in_stock,
                    price := pi.price,
                    product_name := pi.product_name,
                    product_image_url := pi.product_image_url,
                    raw_status := htmlResult.raw_status }
      | none =>
        Except.ok { pi with
                    in_stock := true,
                    raw_status := ("Inferred: product has active price, no OOS signal") }
    else
      match scrapeProductPage env.page tcin with
      | some r => Except.ok r
      | none => Except.error (("All Target API endpoints and HTML scrape failed for TCIN ") ++ tcin ++ ("."))
  | none, none =>
    match scrapeProductPage env.page tcin with
    | some r => Except.ok r
    | none => Except.error (("All Target API endpoints and HTML scrape failed for TCIN ") ++ tcin ++ ("."))

end StockLib

/-! ## Watch items and the cron purchase trigger (route.ts POST / triggerAutoBuy) -/

/-- The fields of a watchlist_items row that the cron cycle reads.
`last_checked_at` is milliseconds since epoch; `max_price` is the item's
price ceiling. -/
structure CronItem where
  id : String
  user_id : String
  product_url : String
  last_checked_at : Option Int := none
  poll_interval_seconds : Option Int := none
  mode : String
  max_price : Option ℚ := none
deriving Repr, DecidableEq

/-- route.ts 171: the only condition guarding the auto-buy path of the cron
loop. -/
def shouldTriggerAutoBuy (result : StockResult) (item : CronItem) : Bool :=
  result.in_stock && item.mode == ("auto_buy")

/-- What one call of triggerAutoBuy did. -/
structure TriggerOutcome where
  threw : Bool
  attemptCreated : Bool
  jobEnqueued : Bool
deriving Repr, DecidableEq

/-- triggerAutoBuy (route.ts 221-261): looks up the (user, retailer)
credential row; absent credentials log a warning and return normally;
otherwise a PurchaseAttempt(detected) row is inserted and the job is
published to the queue (a publish failure throws after the insert). -/
def triggerAutoBuy (credsPresent : Bool) (publishThrows : Bool) : TriggerOutcome :=
  if !credsPresent then { threw := false, attemptCreated := false, jobEnqueued := false }
  else if publishThrows then { threw := true, attemptCreated := true, jobEnqueued := false }
  else { threw := false, attemptCreated := true, jobEnqueued := true }

/-- route.ts 183-190: the autobuy:{item} lock is deleted only in the catch
branch, so it stays held (until its 180s TTL) iff triggerAutoBuy returned
without throwing. -/
def buyLockStillHeld (o : TriggerOutcome) : Bool := !o.threw

/-! ## Per-cycle dedup of stock checks (route.ts 119-138)

The loop keeps a Map from TCIN to the snapshot resolved for it this cycle
and consults it before querying upstream.  `resolve` stands for the
upstream query (checkTargetStock) and `itemLockOk` for the per-item Redis
set-if-absent outcome. -/

structure CycleState where
  cache : List (String × StockResult)
  upstreamCalls : List String
deriving Repr, DecidableEq

def lookupCache : List (String × StockResult) → String → Option StockResult
  | [], _ => none
  | (k, v) :: rest, t => if k == t then some v else lookupCache rest t

/-- One iteration of the cron item loop, restricted to the resolution part:
extract the TCIN, take the per-item lock (skip on contention), then use the
cached snapshot or query upstream.  `resolve` stands for the awaited
checkTargetStock call and may throw (Except.error); a throw is caught by
the per-item catch (route.ts 195-197), which records the error and moves
on - the TCIN is then left uncached though upstream was queried. -/
def processItem (resolve : String → Except String StockResult) (itemLockOk : String → Bool)
    (st : CycleState) (item : CronItem) : CycleState × Option StockResult :=
  match extractTcin item.product_url with
  | none => (st, none)
  | some tcin =>
    if itemLockOk item.id then
      match lookupCache st.cache tcin with
      | some r => (st, some r)
      | none =>
        match resolve tcin with
        | Except.ok r =>
          ({ cache := st.cache ++ [(tcin, r)], upstreamCalls := st.upstreamCalls ++ [tcin] },
           some r)
        | Except.error _ =>
          ({ st with upstreamCalls := st.upstreamCalls ++ [tcin] }, none)
    else (st, none)

def runCycleAux (resolve : String → Except String StockResult) (itemLockOk : String → Bool) :
    List CronItem → CycleState → CycleState × List (CronItem × Option StockResult)
  | [], st => (st, [])
  | it :: rest, st =>
    let step := processItem resolve itemLockOk st it
    let tail := runCycleAux resolve itemLockOk rest step.1
    (tail.1, (it, step.2) :: tail.2)

/-- The resolution outcomes of one cron cycle over its item list, starting
from the empty per-cycle cache. -/
def runCycle (resolve : String → Except String StockResult) (itemLockOk : String → Bool)
    (items : List CronItem) : CycleState × List (CronItem × Option StockResult) :=
  runCycleAux resolve itemLockOk items { cache := [], upstreamCalls := [] }

/-! ## Due selection and fair interleave (route.ts 75-110) -/

def MAX_ITEMS_PER_RUN : Nat := 50

/-- JS (x || d) on optional integers: null/undefined and 0 fall through. -/
def jsOrInt (a : Option Int) (d : Int) : Int :=
  match a with
  | none => d
  | some x => if x == 0 then d else x

/-- route.ts 77-82: an item is due when it was never checked or when
now - last_checked_at has reached its poll interval (in ms). -/
def isDue (now : Int) (item : CronItem) : Bool :=
  match item.last_checked_at with
  | none => true
  | some lastCheck => jsOrInt item.poll_interval_seconds 300 * 1000 ≤ now - lastCheck

/-- The due filter: the fetched rows are kept in the order the database
returned them (no ordering clause is issued). -/
def selectDue (now : Int) (items : List CronItem) : List CronItem :=
  items.filter (isDue now)

/-- route.ts 89-94: JS Map grouping, insertion-ordered by first appearance
of each user. -/
def insertByUser (acc : List (String × List CronItem)) (item : CronItem) :
    List (String × List CronItem) :=
  match acc with
  | [] => [(item.user_id, [item])]
  | (u, q) :: rest =>
    if u == item.user_id then (u, q ++ [item]) :: rest
    else (u, q) :: insertByUser rest item

def groupByUser (items : List CronItem) : List (String × List CronItem) :=
  items.foldl insertByUser []

/-- One round of the round-robin: element idx of every user queue that
still has one. -/
def rrRound (queues : List (List CronItem)) (idx : Nat) : List CronItem :=
  queues.filterMap (fun q => q.get? idx)

/-- route.ts 96-110: while the order is shorter than min(due, cap), take one
item per user queue per round; the inner loop breaks as soon as the cap is
reached (modelled by the take).  fuel bounds the number of rounds. -/
def fairOrderLoop (queues : List (List CronItem)) (dueLen : Nat) :
    Nat → Nat → List CronItem → List CronItem
  | 0, _, acc => acc
  | fuel + 1, idx, acc =>
    if acc.length < min dueLen MAX_ITEMS_PER_RUN then
      let added := rrRound queues idx
      if added.isEmpty then acc
      else fairOrderLoop queues dueLen fuel (idx + 1) ((acc ++ added).take MAX_ITEMS_PER_RUN)
    else acc

/-- The list of items one cron cycle processes, in order: due filter, group
by user, capped round-robin interleave. -/
def fairOrder (now : Int) (items : List CronItem) : List CronItem :=
  let dueItems := selectDue now items
  let queues := (groupByUser dueItems).map Prod.snd
  fairOrderLoop queues dueItems.length (dueItems.length + 1) 0 []

/-! ## Lock traffic of one cron cycle (route.ts 52-217)

The Redis keys are cron:stock-check:lock, cron:item:{id} and
autobuy:{id}; the three namespaces are disjoint, so they are modelled as a
structured key type. -/

inductive LockKey
  | cronRun
  | item (id : String)
  | autobuy (id : String)
deriving Repr, DecidableEq

inductive LockEvent
  | acquire (key : LockKey)
  | release (key : LockKey)
deriving Repr, DecidableEq

/-- How far one item's processing went, as observed by the lock layer. -/
structure ItemRun where
  id : String
  hasTcin : Bool
  itemLockOk : Bool
  inStock : Bool
  isAutoBuy : Bool
  buyLockOk : Bool
  buyThrows : Bool
deriving Repr, DecidableEq

/-- Lock events of one iteration of the item loop (route.ts 122-198):
no TCIN or lost item lock skip the item; an in-stock auto-buy item takes
the purchase lock, which is deleted only when triggerAutoBuy throws.
No release of the cron:item lock ever occurs. -/
def itemTrace (it : ItemRun) : List LockEvent :=
  if !it.hasTcin then []
  else if !it.itemLockOk then []
  else
    LockEvent.acquire (LockKey.item it.id) ::
    (if it.inStock && it.isAutoBuy then
      if !it.buyLockOk then []
      else
        LockEvent.acquire (LockKey.autobuy it.id) ::
        (if it.buyThrows then [LockEvent.release (LockKey.autobuy it.id)] else [])
     else [])

/-- Lock events of one whole cycle whose run lock was acquired
(route.ts 52-217): the finally clause releases the run lock at the end even
when the body throws before reaching the item loop (bodyThrows). -/
def cycleTrace (items : List ItemRun) (bodyThrows : Bool) : List LockEvent :=
  LockEvent.acquire LockKey.cronRun ::
  ((if bodyThrows then [] else (items.map itemTrace).flatten)
    ++ [LockEvent.release LockKey.cronRun])

def isItemLockRelease : LockEvent → Bool
  | LockEvent.release (LockKey.item _) => true
  | _ => false

/-! ## Playbook engine (src/lib/autobuy/playbook-engine.ts) -/

/-- The playbook action vocabulary (playbook-engine.ts 13-21).  The timeout
fields only tune waiting and are not modelled; fill values and selectors are
taken post variable substitution. -/
inductive PlaybookAction
  | goto (url : String)
  | click (selector : String) (optional : Bool)
  | fill (selector : String) (value : String)
  | wait (ms : Nat)
  | wait_for (selector : String)
  | dismiss_popup (selectors : List String)
  | check_url (contains : String) (fail_if : Bool) (message : String)
  | check_text (pat : String) (fail_if : Bool) (message : String)
deriving Repr, DecidableEq

/-- A checkout_playbooks row. -/
structure PlaybookRow where
  id : Nat
  retailer : String
  version : Nat
  steps : List PlaybookAction
  success_count : Nat
  fail_count : Nat
  is_active : Bool
deriving Repr, DecidableEq

/-- The per-retailer version query of savePlaybook (order by version desc
limit 1, defaulted to 0 by the JS || when no row exists). -/
def maxVersion (db : List PlaybookRow) (retailer : String) : Nat :=
  (((db.filter (fun r => r.retailer == retailer)).map PlaybookRow.version)).foldr max 0

/-- The update issued by savePlaybook's first statement: rows of the given
retailer that are active become inactive, every other row is untouched. -/
def deactivateFor (retailer : String) (r : PlaybookRow) : PlaybookRow :=
  if r.retailer == retailer && r.is_active then { r with is_active := false } else r

/-- savePlaybook (playbook-engine.ts 49-88): deactivate every active row of
the retailer, then insert the new steps as active with success_count 1 and
version one past the retailer's maximum. -/
def newPlaybookRow (retailer : String) (steps : List PlaybookAction)
    (newId : Nat) (version : Nat) : PlaybookRow :=
  { id := newId, retailer := retailer, version := version, steps := steps,
    success_count := 1, fail_count := 0, is_active := true }

def savePlaybook (db : List PlaybookRow) (retailer : String)
    (steps : List PlaybookAction) (newId : Nat) : List PlaybookRow :=
  let deactivated := db.map (deactivateFor retailer)
  let nextVersion := maxVersion db retailer + 1
  deactivated ++ [newPlaybookRow retailer steps newId nextVersion]

def countActive (db : List PlaybookRow) (retailer : String) : Nat :=
  (db.filter (fun r => r.retailer == retailer && r.is_active)).length

/-- recordPlaybookSuccess (playbook-engine.ts 90-108): increments
success_count and touches timestamps; fail_count is left unchanged. -/
def recordPlaybookSuccess (row : PlaybookRow) : PlaybookRow :=
  { row with success_count := row.success_count + 1 }

/-- recordPlaybookFailure (playbook-engine.ts 110-135): increments
fail_count and deactivates the row once the count reaches 3. -/
def recordPlaybookFailure (row : PlaybookRow) : PlaybookRow :=
  let newFailCount := row.fail_count + 1
  { row with fail_count := newFailCount,
             is_active := if 3 ≤ newFailCount then false else row.is_active }

/-! ## Playbook replay (playbook-engine.ts 143-297)

The browser is an oracle: `actionOk i` says whether the goto/click/fill/
wait_for of step i succeeded, `popupHit i` whether some popup selector
matched at step i, `urlHas`/`textHas` evaluate the checkpoint predicates. -/

structure ReplayEnv where
  actionOk : Nat → Bool
  popupHit : Nat → Bool
  urlHas : Nat → String → Bool
  textHas : Nat → String → Bool

structure ReplayResult where
  success : Bool
  failedAt : Option Nat := none
  error : Option String := none
  steps_completed : List String
deriving Repr, DecidableEq

/-- The log line a completed (non-aborting) step pushes; the wall-clock
latency suffixes of the source are omitted. -/
def logEntry (env : ReplayEnv) (i : Nat) : PlaybookAction → String
  | PlaybookAction.goto url => ("→ ") ++ url.take 60
  | PlaybookAction.click sel _ =>
    if env.actionOk i then ("✓ Click: ") ++ sel.take 40 else ("⊘ Skip: ") ++ sel.take 40
  | PlaybookAction.fill sel v =>
    if v == ("") then ("⊘ Skip fill (empty value): ") ++ sel.take 40
    else ("✓ Fill: ") ++ sel.take 40
  | PlaybookAction.wait ms => ("⏱ Wait ") ++ toString ms ++ ("ms")
  | PlaybookAction.wait_for sel => ("✓ Visible: ") ++ sel.take 40
  | PlaybookAction.dismiss_popup sels => ("✓ Dismissed: ") ++ (sels.headD ("")).take 40
  | PlaybookAction.check_url c _ _ => ("✓ URL check: ") ++ c
  | PlaybookAction.check_text p _ _ => ("✓ Text check: ") ++ p

/-- The strict in-order replay loop: each step either completes (appending
its log line), is skipped into the log (optional click miss, empty fill,
silent popup miss appends nothing), or aborts the whole replay with the
current index and the log so far. -/
def replayAux (env : ReplayEnv) : List PlaybookAction → Nat → List String → ReplayResult
  | [], _, log => { success := true, steps_completed := log }
  | step :: rest, i, log =>
    match step with
    | PlaybookAction.goto url =>
      if env.actionOk i then
        replayAux env rest (i + 1) (log ++ [logEntry env i (PlaybookAction.goto url)])
      else { success := false, failedAt := some i,
             error := some (("Step ") ++ toString i), steps_completed := log }
    | PlaybookAction.click sel opt =>
      if env.actionOk i || opt then
        replayAux env rest (i + 1) (log ++ [logEntry env i (PlaybookAction.click sel opt)])
      else { success := false, failedAt := some i,
             error := some (("Step ") ++ toString i), steps_completed := log }
    | PlaybookAction.fill sel v =>
      if v == ("") then
        replayAux env rest (i + 1) (log ++ [logEntry env i (PlaybookAction.fill sel v)])
      else if env.actionOk i then
        replayAux env rest (i + 1) (log ++ [logEntry env i (PlaybookAction.fill sel v)])
      else { success := false, failedAt := some i,
             error := some (("Step ") ++ toString i), steps_completed := log }
    | PlaybookAction.wait ms =>
      replayAux env rest (i + 1) (log ++ [logEntry env i (PlaybookAction.wait ms)])
    | PlaybookAction.wait_for sel =>
      if env.actionOk i then
        replayAux env rest (i + 1) (log ++ [logEntry env i (PlaybookAction.wait_for sel)])
      else { success := false, failedAt := some i,
             error := some (("Step ") ++ toString i), steps_completed := log }
    | PlaybookAction.dismiss_popup sels =>
      if env.popupHit i then
        replayAux env rest (i + 1) (log ++ [logEntry env i (PlaybookAction.dismiss_popup sels)])
      else replayAux env rest (i + 1) log
    | PlaybookAction.check_url c fi msg =>
      let m := env.urlHas i c
      if (fi && m) || (!fi && !m) then
        { success := false, failedAt := some i, error := some msg, steps_completed := log }
      else replayAux env rest (i + 1) (log ++ [logEntry env i (PlaybookAction.check_url c fi msg)])
    | PlaybookAction.check_text p fi msg =>
      let m := env.textHas i p
      if (fi && m) || (!fi && !m) then
        { success := false, failedAt := some i, error := some msg, steps_completed := log }
      else replayAux env rest (i + 1) (log ++ [logEntry env i (PlaybookAction.check_text p fi msg)])

/-- replayPlaybook (playbook-engine.ts 143-297). -/
def replayPlaybook (env : ReplayEnv) (steps : List PlaybookAction) : ReplayResult :=
  replayAux env steps 0 []

/-- A step neither aborts the replay nor is a silently missed popup, i.e. it
contributes exactly one log line. -/
def completesOne (env : ReplayEnv) (i : Nat) : PlaybookAction → Bool
  | PlaybookAction.goto _ => env.actionOk i
  | PlaybookAction.click _ opt => env.actionOk i || opt
  | PlaybookAction.fill _ v => v == ("") || env.actionOk i
  | PlaybookAction.wait _ => true
  | PlaybookAction.wait_for _ => env.actionOk i
  | PlaybookAction.dismiss_popup _ => env.popupHit i
  | PlaybookAction.check_url c fi _ => if fi then !env.urlHas i c else env.urlHas i c
  | PlaybookAction.check_text p fi _ => if fi then !env.textHas i p else env.textHas i p

/-- A step that does not abort the replay.  It coincides with completesOne
except for dismiss_popup, which never aborts: when no popup selector
matches it completes silently, contributing no log line. -/
def completes (env : ReplayEnv) (i : Nat) : PlaybookAction → Bool
  | PlaybookAction.goto _ => env.actionOk i
  | PlaybookAction.click _ opt => env.actionOk i || opt
  | PlaybookAction.fill _ v => v == ("") || env.actionOk i
  | PlaybookAction.wait _ => true
  | PlaybookAction.wait_for _ => env.actionOk i
  | PlaybookAction.dismiss_popup _ => true
  | PlaybookAction.check_url c fi _ => if fi then !env.urlHas i c else env.urlHas i c
  | PlaybookAction.check_text p fi _ => if fi then !env.textHas i p else env.textHas i p

/-- The number of log lines a non-aborting step pushes: one, except for a
silently missed dismiss_popup, which pushes none. -/
def entriesOf (env : ReplayEnv) (i : Nat) (s : PlaybookAction) : Nat :=
  if completesOne env i s then 1 else 0

/-! ## Concrete fixtures for counterexamples and witnesses -/

/-- An auto-buy item whose price ceiling is 10 dollars. -/
def itemC1 : CronItem :=
  { id := ("w1"), user_id := ("u1"),
    product_url := ("https://www.target.com/p/-/A-93954435"),
    mode := ("auto_buy"), max_price := some 10 }

/-- An in-stock snapshot priced at 19.99, above itemC1's ceiling. -/
def resultC1 : StockResult :=
  { in_stock := true, price := some ((1999 : ℚ) / 100),
    product_name := ("Booster Bundle"), product_image_url := none,
    raw_status := ("Ship: IN_STOCK") }

/-- A five-step playbook: two preparation steps, a click, the failing
non-optional click, and a trailing wait. -/
def stepsC2 : List PlaybookAction :=
  [PlaybookAction.goto ("https://www.target.com/p/-/A-93954435"),
   PlaybookAction.wait 100,
   PlaybookAction.click ("#addToCart") false,
   PlaybookAction.click ("#checkout") false,
   PlaybookAction.wait 50]

/-- A browser oracle where every action succeeds except step index 3. -/
def envC2 : ReplayEnv :=
  { actionOk := fun i => i != 3, popupHit := fun _ => true,
    urlHas := fun _ _ => true, textHas := fun _ _ => false }

/-- Upstream world where every endpoint and the page fetch fail. -/
def envAllFail : StockLib.Upstream := {}

/-- Upstream world where the structured endpoints fail but the product page
yields a snapshot through the text-heuristic layer. -/
def envHtmlOnly : StockLib.Upstream :=
  { page := some { titleText := some ("Cool Toy : Target") } }

/-- Upstream world where the first pdp endpoint returns a price-only payload
and everything else (fulfillment endpoints, page scrape) fails. -/
def envPriceOnly (q : ℚ) : StockLib.Upstream :=
  { pdp1 := some { product := some { current_retail := some q } } }

/-- A fresh active playbook row. -/
def rowC5 : PlaybookRow :=
  { id := 7, retailer := ("target"), version := 1, steps := [],
    success_count := 1, fail_count := 0, is_active := true }

/-- A fully processed in-stock auto-buy item whose purchase did not throw. -/
def itemRunC9 : ItemRun :=
  { id := ("item1"), hasTcin := true, itemLockOk := true, inStock := true,
    isAutoBuy := true, buyLockOk := true, buyThrows := false }

/-- Two due items of one user, the first checked more recently than the second. -/
def itemA8 : CronItem :=
  { id := ("a"), user_id := ("u1"), product_url := ("https://t/A-1"),
    last_checked_at := some 800000000, poll_interval_seconds := some 300,
    mode := ("notify") }

def itemB8 : CronItem :=
  { id := ("b"), user_id := ("u1"), product_url := ("https://t/A-2"),
    last_checked_at := some 1000, poll_interval_seconds := some 300,
    mode := ("notify") }

/-- Two items of one user sharing a product locator. -/
def itW1 : CronItem :=
  { id := ("i1"), user_id := ("u"), product_url := ("https://t/A-111"), mode := ("notify") }

def itW2 : CronItem :=
  { id := ("i2"), user_id := ("u"), product_url := ("https://t/A-111"), mode := ("notify") }

def snapW : StockResult :=
  { in_stock := true, price := some 5, product_name := ("P"),
    product_image_url := none, raw_status := ("S") }

def resolveW : String → Except String StockResult := fun _ => Except.ok snapW

/-- A cycle-long upstream outage: every resolution throws, like
checkTargetStock's final throw when both endpoints fail. -/
def resolveFailW : String → Except String StockResult :=
  fun t => Except.error (("All Target API endpoints failed for TCIN ") ++ t)

def locksW : String → Bool := fun _ => true

/-- A five-step playbook whose second step is a popup dismissal. -/
def stepsC2b : List PlaybookAction :=
  [PlaybookAction.goto ("https://www.target.com/p/-/A-93954435"),
   PlaybookAction.dismiss_popup [("button.no-thanks")],
   PlaybookAction.click ("#addToCart") false,
   PlaybookAction.click ("#checkout") false,
   PlaybookAction.wait 50]

/-- A browser oracle where every action succeeds except step index 3, and
no popup selector ever matches (popups are dismissed silently). -/
def envC2b : ReplayEnv :=
  { actionOk := fun i => i != 3, popupHit := fun _ => false,
    urlHas := fun _ _ => true, textHas := fun _ _ => false }

/-- ASCII lowercasing, used to state case-insensitive containment. -/
def lowerChar (c : Char) : Char :=
  if ('A' ≤ c && c ≤ 'Z') then Char.ofNat (c.toNat + 32) else c

def lowerStr (s : String) : String := String.mk (s.toList.map lowerChar)

/-! ## Theorems -/

/-- C1 counterexample: an auto-buy item whose in-stock snapshot price 19.99
exceeds its 10-dollar ceiling still passes the cron trigger condition, and
triggerAutoBuy (credentials present) creates the PurchaseAttempt and
enqueues the job — contradicting the claim that no attempt is created. -/
theorem c1_ceiling_not_checked_counterexample :
    resultC1.price = some ((1999 : ℚ) / 100) ∧
    itemC1.max_price = some 10 ∧
    ((10 : ℚ) < (1999 : ℚ) / 100) ∧
    shouldTriggerAutoBuy resultC1 itemC1 = true ∧
    (triggerAutoBuy true false).attemptCreated = true ∧
    (triggerAutoBuy true false).jobEnqueued = true := by
  refine ⟨rfl, rfl, by norm_num, rfl, rfl, rfl⟩

/-- C1 amended: the cron purchase trigger is exactly
snapshot.in_stock AND mode auto_buy; it is independent of the snapshot
price and of the item's ceiling, and whenever it fires with credentials
present a PurchaseAttempt row is created (the ceiling is enforced later,
inside the purchase engine). -/
theorem c1_trigger_ignores_ceiling :
    ∀ (r : StockResult) (item : CronItem) (p p' c c' : Option ℚ) (pubThrows : Bool),
      shouldTriggerAutoBuy { r with price := p } { item with max_price := c }
        = shouldTriggerAutoBuy { r with price := p' } { item with max_price := c' } ∧
      shouldTriggerAutoBuy r item = (r.in_stock && item.mode == ("auto_buy")) ∧
      (triggerAutoBuy true pubThrows).attemptCreated = true := by
  intro r item p p' c c' pubThrows
  refine ⟨rfl, rfl, ?_⟩
  cases pubThrows <;> rfl

/-- C5: the failure counter is cumulative, not consecutive — the code's own
comment says three consecutive failures deactivate, but recordPlaybookSuccess
never resets fail_count, so failure, failure, success, failure still
deactivates the playbook. -/
theorem c5_failure_counter_cumulative :
    (∀ row : PlaybookRow,
      (recordPlaybookSuccess row).fail_count = row.fail_count ∧
      (recordPlaybookSuccess row).is_active = row.is_active) ∧
    (recordPlaybookFailure (recordPlaybookSuccess
      (recordPlaybookFailure (recordPlaybookFailure rowC5)))).is_active = false ∧
    (recordPlaybookFailure (recordPlaybookSuccess
      (recordPlaybookFailure (recordPlaybookFailure rowC5)))).fail_count = 3 := by
  exact ⟨fun row => ⟨rfl, rfl⟩, by decide, by decide⟩

/-- C10: when the item's user has no stored retailer credential,
triggerAutoBuy returns normally (no throw), creates no PurchaseAttempt and
enqueues no job, and since only a thrown error deletes the autobuy lock,
the purchase lock stays held (until its TTL); the item's lock trace shows
the acquires with no autobuy release. -/
theorem c10_no_creds_no_attempt :
    (∀ pubThrows : Bool,
      (triggerAutoBuy false pubThrows).threw = false ∧
      (triggerAutoBuy false pubThrows).attemptCreated = false ∧
      (triggerAutoBuy false pubThrows).jobEnqueued = false ∧
      buyLockStillHeld (triggerAutoBuy false pubThrows) = true) ∧
    itemTrace itemRunC9
      = [LockEvent.acquire (LockKey.item ("item1")),
         LockEvent.acquire (LockKey.autobuy ("item1"))] := by
  constructor
  · intro pubThrows; cases pubThrows <;> exact ⟨rfl, rfl, rfl, rfl⟩
  · rfl

/-- C2 counterexample: a five-step replay whose non-optional click at index 3
misses returns failedAt 3 with a completed-step log of length 3, not 2 —
the claimed pair (failedAt 3, length 2) never co-occurs. -/
theorem c2_failedAt_log_counterexample :
    (replayPlaybook envC2 stepsC2).success = false ∧
    (replayPlaybook envC2 stepsC2).failedAt = some 3 ∧
    (replayPlaybook envC2 stepsC2).steps_completed.length = 3 ∧
    ¬ ((replayPlaybook envC2 stepsC2).steps_completed.length = 2) := by
  refine ⟨rfl, rfl, rfl, by decide⟩

/-- C9 counterexample: for a fully processed item the cycle's lock trace
contains the acquisition of its cron:item lock but no release of it — the
per-item lock is left to expire by TTL, not released on completion. -/
theorem c9_item_lock_never_released_counterexample :
    LockEvent.acquire (LockKey.item ("item1")) ∈ cycleTrace [itemRunC9] false ∧
    ¬ (LockEvent.release (LockKey.item ("item1")) ∈ cycleTrace [itemRunC9] false) := by
  decide

/-- C8 counterexample: two due items of one user arrive with the more
recently checked one first; the cycle processes them in that arrival order,
so the first processed item has a strictly later last_checked_at than the
second — the selection is not sorted ascending by last_checked_at. -/
theorem c8_not_oldest_first_counterexample :
    isDue 1000000000 itemA8 = true ∧ isDue 1000000000 itemB8 = true ∧
    fairOrder 1000000000 [itemA8, itemB8] = [itemA8, itemB8] ∧
    itemA8.last_checked_at = some 800000000 ∧
    itemB8.last_checked_at = some 1000 ∧
    ((1000 : Int) < 800000000) := by
  refine ⟨by decide, by decide, by decide, rfl, rfl, by norm_num⟩

theorem fairOrderLoop_length_le (queues : List (List CronItem)) (dueLen : Nat) :
    ∀ (fuel idx : Nat) (acc : List CronItem), acc.length ≤ MAX_ITEMS_PER_RUN →
      (fairOrderLoop queues dueLen fuel idx acc).length ≤ MAX_ITEMS_PER_RUN := by
  intro fuel
  induction fuel with
  | zero => intro idx acc h; simpa [fairOrderLoop] using h
  | succ n ih =>
    intro idx acc h
    unfold fairOrderLoop
    split
    · simp only []
      split
      · exact h
      · apply ih
        simp only [List.length_take]
        omega
    · exact h

/-- C8 amended: the due selection is a plain filter of the fetched rows — it
preserves the database's order (no sort by last_checked_at is applied) — and
the cycle's processing list, the capped round-robin interleave of that
filtered list, never exceeds the 50-item cap. -/
theorem c8_selection_is_filter_and_capped :
    ∀ (now : Int) (items : List CronItem),
      List.Sublist (selectDue now items) items ∧
      (fairOrder now items).length ≤ MAX_ITEMS_PER_RUN := by
  intro now items
  refine ⟨List.filter_sublist items, ?_⟩
  exact fairOrderLoop_length_le _ _ _ 0 [] (by simp)

theorem itemTrace_all_no_item_release (it : ItemRun) :
    (itemTrace it).all (fun e => !isItemLockRelease e) = true := by
  rcases it with ⟨i, ht, il, st, ab, bl, bt⟩
  cases ht <;> cases il <;> cases st <;> cases ab <;> cases bl <;> cases bt <;> rfl

theorem flattenTrace_all_no_item_release (items : List ItemRun) :
    ((items.map itemTrace).flatten).all (fun e => !isItemLockRelease e) = true := by
  induction items with
  | nil => rfl
  | cons it rest ih =>
    simp only [List.map_cons, List.flatten_cons, List.all_append]
    rw [itemTrace_all_no_item_release, ih]
    rfl

/-- C9 amended: the run lock is released as the last action of every cycle,
including cycles whose body throws before the item loop (the finally
clause), while no cron:item lock release ever appears in a cycle's trace —
per-item locks are only dropped by TTL expiry. -/
theorem c9_cycle_lock_always_released :
    ∀ (items : List ItemRun) (bodyThrows : Bool),
      (cycleTrace items bodyThrows).getLast? = some (LockEvent.release LockKey.cronRun) ∧
      (cycleTrace items bodyThrows).all (fun e => !isItemLockRelease e) = true := by
  intro items bodyThrows
  constructor
  · unfold cycleTrace
    rw [← List.cons_append, List.getLast?_concat]
  · unfold cycleTrace
    cases bodyThrows with
    | true => rfl
    | false =>
      simp only [if_neg Bool.false_ne_true, List.all_cons, List.all_append]
      rw [flattenTrace_all_no_item_release]
      rfl


theorem deactivateFor_cond_false (R : String) (r : PlaybookRow) :
    ((deactivateFor R r).retailer == R && (deactivateFor R r).is_active) = false := by
  unfold deactivateFor
  by_cases h : (r.retailer == R && r.is_active) = true
  · simp [h]
  · simp only [h, if_neg]
    simpa using h

theorem countActive_append (l1 l2 : List PlaybookRow) (S : String) :
    countActive (l1 ++ l2) S = countActive l1 S + countActive l2 S := by
  simp [countActive, List.filter_append]

theorem countActive_deact_self (db : List PlaybookRow) (R : String) :
    countActive (db.map (deactivateFor R)) R = 0 := by
  induction db with
  | nil => rfl
  | cons r t ih =>
    simp only [List.map_cons, countActive, List.filter_cons] at ih ⊢
    rw [deactivateFor_cond_false]
    simpa [countActive] using ih

theorem countActive_deact_other (db : List PlaybookRow) (R S : String) (h : ¬ S = R) :
    countActive (db.map (deactivateFor R)) S = countActive db S := by
  induction db with
  | nil => rfl
  | cons r t ih =>
    simp only [List.map_cons, countActive, List.filter_cons] at ih ⊢
    have hcond : ((deactivateFor R r).retailer == S && (deactivateFor R r).is_active)
        = (r.retailer == S && r.is_active) := by
      unfold deactivateFor
      by_cases hr : (r.retailer == R && r.is_active) = true
      · rw [if_pos hr]
        simp only [Bool.and_eq_true, beq_iff_eq] at hr
        have hRS : (R == S) = false := beq_eq_false_iff_ne.mpr (fun hs => h hs.symm)
        simp [hr.1, hr.2, hRS]
      · rw [if_neg hr]
    rw [hcond]
    by_cases hc : (r.retailer == S && r.is_active) = true
    · simp only [hc, if_pos, List.length_cons]
      simpa [countActive] using ih
    · simp only [Bool.not_eq_true] at hc
      simp only [hc, Bool.false_eq_true, if_neg, not_false_iff]
      simpa [countActive] using ih

theorem versions_deact (db : List PlaybookRow) (R S : String) :
    ((db.map (deactivateFor R)).filter (fun r => r.retailer == S)).map PlaybookRow.version
      = (db.filter (fun r => r.retailer == S)).map PlaybookRow.version := by
  induction db with
  | nil => rfl
  | cons r t ih =>
    have hret : (deactivateFor R r).retailer = r.retailer := by
      unfold deactivateFor; split <;> rfl
    have hver : (deactivateFor R r).version = r.version := by
      unfold deactivateFor; split <;> rfl
    simp only [List.map_cons, List.filter_cons, hret]
    by_cases hc : (r.retailer == S) = true
    · simp only [hc, if_pos, List.map_cons, hver, ih]
    · simp only [Bool.not_eq_true] at hc
      simp only [hc, Bool.false_eq_true, if_neg, not_false_iff, ih]

theorem foldrMax_append_singleton (l : List Nat) (v : Nat) :
    ((l ++ [v]).foldr max 0) = max (l.foldr max 0) v := by
  induction l with
  | nil => simp [Nat.max_comm]
  | cons a t ih => simp [ih, Nat.max_assoc]

theorem maxVersion_eq_foldr (db : List PlaybookRow) (S : String) :
    maxVersion db S = ((db.filter (fun r => r.retailer == S)).map PlaybookRow.version).foldr max 0 := rfl

/-- C4: savePlaybook leaves exactly one active playbook for the saved
retailer and does not touch other retailers' active counts (so the at most
one active playbook per retailer invariant is preserved), the inserted row
carries version maxVersion + 1, and the retailer's maximum version strictly
increases to that value. -/
theorem c4_savePlaybook_single_active :
    ∀ (db : List PlaybookRow) (R : String) (steps : List PlaybookAction) (newId : Nat) (S : String),
      countActive (savePlaybook db R steps newId) S = (if S = R then 1 else countActive db S) ∧
      (savePlaybook db R steps newId).getLast?.map PlaybookRow.version
        = some (maxVersion db R + 1) ∧
      maxVersion (savePlaybook db R steps newId) R = maxVersion db R + 1 := by
  intro db R steps newId S
  refine ⟨?_, ?_, ?_⟩
  · unfold savePlaybook
    simp only []
    rw [countActive_append]
    by_cases h : S = R
    · subst h
      rw [countActive_deact_self]
      simp [countActive, newPlaybookRow]
    · rw [countActive_deact_other db R S h]
      have hRS : (R == S) = false := beq_eq_false_iff_ne.mpr (fun hs => h hs.symm)
      have hz : countActive [newPlaybookRow R steps newId (maxVersion db R + 1)] S = 0 := by
        simp [countActive, newPlaybookRow, hRS]
      rw [hz]
      simp [h]
  · unfold savePlaybook
    simp only []
    rw [List.getLast?_concat]
    rfl
  · unfold savePlaybook
    simp only []
    rw [maxVersion_eq_foldr, List.filter_append, List.map_append]
    have hnew : (([newPlaybookRow R steps newId (maxVersion db R + 1)] :
          List PlaybookRow).filter (fun r => r.retailer == R)).map PlaybookRow.version
        = [maxVersion db R + 1] := by
      simp [newPlaybookRow]
    rw [hnew, versions_deact db R R, foldrMax_append_singleton, ← maxVersion_eq_foldr]
    omega

theorem replayAux_cons_completes (env : ReplayEnv) (s : PlaybookAction)
    (rest : List PlaybookAction) (i : Nat) (log : List String)
    (h : completesOne env i s = true) :
    replayAux env (s :: rest) i log = replayAux env rest (i + 1) (log ++ [logEntry env i s]) := by
  cases s with
  | goto url =>
    simp only [completesOne] at h
    simp [replayAux, h]
  | click sel opt =>
    simp only [completesOne] at h
    simp [replayAux, h]
  | fill sel v =>
    simp only [completesOne, Bool.or_eq_true] at h
    by_cases hv : (v == ("")) = true
    · simp [replayAux, hv]
    · rcases h with h | h
      · exact absurd h hv
      · simp [replayAux, hv, h]
  | wait ms => simp [replayAux]
  | wait_for sel =>
    simp only [completesOne] at h
    simp [replayAux, h]
  | dismiss_popup sels =>
    simp only [completesOne] at h
    simp [replayAux, h]
  | check_url c fi msg =>
    simp only [completesOne] at h
    cases fi with
    | true =>
      simp at h
      simp [replayAux, h]
    | false =>
      simp at h
      simp [replayAux, h]
  | check_text p fi msg =>
    simp only [completesOne] at h
    cases fi with
    | true =>
      simp at h
      simp [replayAux, h]
    | false =>
      simp at h
      simp [replayAux, h]

theorem replayAux_cons_step (env : ReplayEnv) (s : PlaybookAction)
    (rest : List PlaybookAction) (i : Nat) (log : List String)
    (h : completes env i s = true) :
    replayAux env (s :: rest) i log
      = replayAux env rest (i + 1)
          (log ++ (if completesOne env i s then [logEntry env i s] else [])) := by
  cases s with
  | dismiss_popup sels =>
    by_cases hp : env.popupHit i = true
    · simp [replayAux, completesOne, hp]
    · simp only [Bool.not_eq_true] at hp
      simp [replayAux, completesOne, hp]
  | goto url =>
    have h' : completesOne env i (PlaybookAction.goto url) = true := h
    rw [replayAux_cons_completes env _ rest i log h', h', if_pos rfl]
  | click sel opt =>
    have h' : completesOne env i (PlaybookAction.click sel opt) = true := h
    rw [replayAux_cons_completes env _ rest i log h', h', if_pos rfl]
  | fill sel v =>
    have h' : completesOne env i (PlaybookAction.fill sel v) = true := h
    rw [replayAux_cons_completes env _ rest i log h', h', if_pos rfl]
  | wait ms =>
    have h' : completesOne env i (PlaybookAction.wait ms) = true := h
    rw [replayAux_cons_completes env _ rest i log h', h', if_pos rfl]
  | wait_for sel =>
    have h' : completesOne env i (PlaybookAction.wait_for sel) = true := h
    rw [replayAux_cons_completes env _ rest i log h', h', if_pos rfl]
  | check_url c fi msg =>
    have h' : completesOne env i (PlaybookAction.check_url c fi msg) = true := h
    rw [replayAux_cons_completes env _ rest i log h', h', if_pos rfl]
  | check_text p fi msg =>
    have h' : completesOne env i (PlaybookAction.check_text p fi msg) = true := h
    rw [replayAux_cons_completes env _ rest i log h', h', if_pos rfl]

/-- C2 amended: replay aborts at the first non-optional failure, returning
failedAt = the zero-based index of the failing step and the log
accumulated so far; every completed step pushes exactly one log entry,
except a dismiss_popup matching no selector, which completes silently and
pushes none.  A five-step replay whose non-optional click at index 3
misses therefore returns failedAt 3 and a log holding one entry per
entry-pushing completed step - length 3 when none of the first three steps
was a silently missed popup, length 2 when exactly one was. -/
theorem c2_replay_abort_semantics (env : ReplayEnv) (s0 s1 s2 s4 : PlaybookAction)
    (sel : String)
    (h0 : completes env 0 s0 = true) (h1 : completes env 1 s1 = true)
    (h2 : completes env 2 s2 = true) (h3 : env.actionOk 3 = false) :
    (replayPlaybook env [s0, s1, s2, PlaybookAction.click sel false, s4]).success = false ∧
    (replayPlaybook env [s0, s1, s2, PlaybookAction.click sel false, s4]).failedAt = some 3 ∧
    (replayPlaybook env [s0, s1, s2, PlaybookAction.click sel false, s4]).steps_completed.length
      = entriesOf env 0 s0 + entriesOf env 1 s1 + entriesOf env 2 s2 := by
  unfold replayPlaybook
  rw [replayAux_cons_step env s0 _ 0 [] h0,
      replayAux_cons_step env s1 _ 1 _ h1,
      replayAux_cons_step env s2 _ 2 _ h2]
  refine ⟨by simp [replayAux, h3], by simp [replayAux, h3], ?_⟩
  simp only [replayAux, h3, Bool.false_or, Bool.or_self, if_neg, Bool.false_eq_true,
    not_false_iff]
  simp only [entriesOf, List.nil_append, List.length_append]
  split <;> split <;> split <;> simp

/-- C2 amended witness: a concrete five-step playbook whose step index 1 is
a silently missed popup dismissal and whose non-optional click at index 3
misses - the replay returns failedAt 3 with a length-2 log. -/
theorem c2_replay_abort_semantics_witness :
    completes envC2b 0 (PlaybookAction.goto ("https://www.target.com/p/-/A-93954435")) = true ∧
    completes envC2b 1 (PlaybookAction.dismiss_popup [("button.no-thanks")]) = true ∧
    completes envC2b 2 (PlaybookAction.click ("#addToCart") false) = true ∧
    envC2b.actionOk 3 = false ∧
    ((replayPlaybook envC2b stepsC2b).success = false ∧
     (replayPlaybook envC2b stepsC2b).failedAt = some 3 ∧
     (replayPlaybook envC2b stepsC2b).steps_completed.length
       = entriesOf envC2b 0 (PlaybookAction.goto ("https://www.target.com/p/-/A-93954435"))
         + entriesOf envC2b 1 (PlaybookAction.dismiss_popup [("button.no-thanks")])
         + entriesOf envC2b 2 (PlaybookAction.click ("#addToCart") false)) ∧
    (replayPlaybook envC2b stepsC2b).steps_completed.length = 2 :=
  ⟨rfl, rfl, rfl, rfl,
   c2_replay_abort_semantics envC2b
     (PlaybookAction.goto ("https://www.target.com/p/-/A-93954435"))
     (PlaybookAction.dismiss_popup [("button.no-thanks")])
     (PlaybookAction.click ("#addToCart") false)
     (PlaybookAction.wait 50)
     ("#checkout") rfl rfl rfl rfl,
   by decide⟩

theorem firstSome_three {α : Type} {a b c : Option α} {v : α}
    (h : firstSome [a, b, c] = some v) : a = some v ∨ b = some v ∨ c = some v := by
  cases a with
  | some x => exact Or.inl (by simpa [firstSome] using h)
  | none =>
    cases b with
    | some x => exact Or.inr (Or.inl (by simpa [firstSome] using h))
    | none =>
      cases c with
      | some x => exact Or.inr (Or.inr (by simpa [firstSome] using h))
      | none => simp [firstSome] at h

theorem usableFulfill_some {x : Option StockResult} {r : StockResult}
    (h : StockLib.usableFulfill x = some r) : (r.raw_status != ("Unknown")) = true := by
  cases x with
  | none => simp [StockLib.usableFulfill] at h
  | some r' =>
    simp only [StockLib.usableFulfill] at h
    by_cases hr : (r'.raw_status != ("Unknown")) = true
    · rw [if_pos hr] at h
      injection h with h'
      rwa [← h']
    · rw [if_neg hr] at h
      exact absurd h (by simp)

theorem fulfillmentInfoOf_usable {env : StockLib.Upstream} {tcin : String} {fi : StockResult}
    (h : StockLib.fulfillmentInfoOf env tcin = some fi) :
    (fi.raw_status != ("Unknown")) = true := by
  unfold StockLib.fulfillmentInfoOf at h
  rcases firstSome_three h with h' | h' | h' <;> exact usableFulfill_some h'

/-- C3: the shared resolver errors only after the whole fallback chain is
exhausted — whenever checkTargetStock returns an error, no fulfillment
endpoint produced a usable parse and the HTML page scrape (embedded
page-state blob, JSON-LD, text heuristics) produced nothing — whereas the
cron route's inline copy of checkTargetStock errors as soon as its two
structured endpoints fail, never attempting the HTML fallback that would
have produced a snapshot (the lib resolver succeeds on the same world via
the page). -/
theorem c3_resolver_exhaustion :
    (∀ (env : StockLib.Upstream) (tcin : String),
        (StockLib.checkTargetStock env tcin).isOk = false →
          StockLib.fulfillmentInfoOf env tcin = none ∧
          StockLib.scrapeProductPage env.page tcin = none) ∧
    (CronRoute.checkTargetStock none none ("93954435")).isOk = false ∧
    (StockLib.checkTargetStock envHtmlOnly ("93954435")).isOk = true := by
  refine ⟨?_, by decide, by decide⟩
  intro env tcin h
  unfold StockLib.checkTargetStock at h
  cases hp : StockLib.productInfoOf env tcin with
  | some pi =>
    cases hf : StockLib.fulfillmentInfoOf env tcin with
    | some fi => rw [hp, hf] at h; simp [Except.isOk, Except.toBool] at h
    | none =>
      rw [hp, hf] at h
      simp only [] at h
      refine ⟨rfl, ?_⟩
      by_cases hpr : (!pi.price.isNone) = true
      · rw [if_pos hpr] at h
        cases hs : StockLib.scrapeProductPage env.page tcin with
        | some r => rw [hs] at h; simp [Except.isOk, Except.toBool] at h
        | none => rfl
      · rw [if_neg hpr] at h
        cases hs : StockLib.scrapeProductPage env.page tcin with
        | some r => rw [hs] at h; simp [Except.isOk, Except.toBool] at h
        | none => rfl
  | none =>
    cases hf : StockLib.fulfillmentInfoOf env tcin with
    | some fi =>
      rw [hp, hf] at h
      simp only [] at h
      have hu := fulfillmentInfoOf_usable hf
      rw [if_pos hu] at h
      simp [Except.isOk, Except.toBool] at h
    | none =>
      rw [hp, hf] at h
      simp only [] at h
      refine ⟨rfl, ?_⟩
      cases hs : StockLib.scrapeProductPage env.page tcin with
      | some r => rw [hs] at h; simp [Except.isOk, Except.toBool] at h
      | none => rfl

/-- C3 witness: on the world where every endpoint and the page fail, the
lib resolver errors, and the exhaustion conclusions hold there. -/
theorem c3_resolver_exhaustion_witness :
    StockLib.fulfillmentInfoOf envAllFail ("1") = none ∧
    StockLib.scrapeProductPage envAllFail.page ("1") = none :=
  c3_resolver_exhaustion.1 envAllFail ("1") (by decide)

/-- C6: when the fulfillment endpoints all fail, one structured source
returns a live price q with no fulfillment fields, and the page scrape
finds no out-of-stock signal (it fails outright), the resolver returns an
in-stock snapshot carrying that price whose raw_status contains
inferred (case-insensitively). -/
theorem c6_inferred_availability (q : ℚ) (hq : q ≠ 0) :
    StockLib.checkTargetStock (envPriceOnly q) ("12345") =
      Except.ok { in_stock := true, price := some q,
                  product_name := ("Target Product 12345"),
                  product_image_url := none,
                  raw_status := ("Inferred: product has active price, no OOS signal") } ∧
    containsSub (lowerStr ("Inferred: product has active price, no OOS signal")) ("inferred") = true := by
  have hq' : (q == 0) = false := by simpa using hq
  have ht : truthyQ (some q) = true := by
    simp only [truthyQ, bne_iff_ne, ne_eq]
    exact hq
  refine ⟨?_, by decide⟩
  unfold StockLib.checkTargetStock StockLib.productInfoOf StockLib.fulfillmentInfoOf
  simp only [envPriceOnly, Option.bind, firstSome, StockLib.parsePdpClientResponse,
    StockLib.usableFulfill, jsOrQ, ht, if_true]
  rfl

/-- C6 witness at the scenario's concrete price 19.99. -/
theorem c6_inferred_availability_witness :
    ((1999 : ℚ) / 100 ≠ 0) ∧
    (StockLib.checkTargetStock (envPriceOnly ((1999 : ℚ) / 100)) ("12345") =
      Except.ok { in_stock := true, price := some ((1999 : ℚ) / 100),
                  product_name := ("Target Product 12345"),
                  product_image_url := none,
                  raw_status := ("Inferred: product has active price, no OOS signal") } ∧
     containsSub (lowerStr ("Inferred: product has active price, no OOS signal")) ("inferred") = true) :=
  ⟨by norm_num, c6_inferred_availability ((1999 : ℚ) / 100) (by norm_num)⟩

theorem lookupCache_append_some {c : List (String × StockResult)} {t : String}
    {v : StockResult} (h : lookupCache c t = some v) (x : String × StockResult) :
    lookupCache (c ++ [x]) t = some v := by
  induction c with
  | nil => simp [lookupCache] at h
  | cons p rest ih =>
    rcases p with ⟨k, w⟩
    simp only [List.cons_append, lookupCache] at h ⊢
    by_cases hk : (k == t) = true
    · rw [if_pos hk] at h ⊢; exact h
    · rw [if_neg hk] at h ⊢; exact ih h

theorem lookupCache_append_self {c : List (String × StockResult)} {t : String}
    (v : StockResult) (h : lookupCache c t = none) :
    lookupCache (c ++ [(t, v)]) t = some v := by
  induction c with
  | nil => simp [lookupCache]
  | cons p rest ih =>
    rcases p with ⟨k, w⟩
    simp only [List.cons_append, lookupCache] at h ⊢
    by_cases hk : (k == t) = true
    · rw [if_pos hk] at h; exact absurd h (by simp)
    · rw [if_neg hk] at h ⊢; exact ih h

theorem lookupCache_append_ne {c : List (String × StockResult)} {t k : String}
    (v : StockResult) (hk : (k == t) = false) (h : lookupCache c t = none) :
    lookupCache (c ++ [(k, v)]) t = none := by
  induction c with
  | nil => simp [lookupCache, hk]
  | cons p rest ih =>
    rcases p with ⟨k0, w⟩
    simp only [List.cons_append, lookupCache] at h ⊢
    by_cases hk0 : (k0 == t) = true
    · rw [if_pos hk0] at h; exact absurd h (by simp)
    · rw [if_neg hk0] at h ⊢; exact ih h

theorem lookupCache_append_other {c : List (String × StockResult)} {t k : String}
    (v : StockResult) (hk : (k == t) = false) :
    lookupCache (c ++ [(k, v)]) t = lookupCache c t := by
  cases hc : lookupCache c t with
  | some w => exact lookupCache_append_some hc _
  | none => exact lookupCache_append_ne v hk hc

theorem processItem_mono (resolve : String → Except String StockResult) (locks : String → Bool)
    (st : CycleState) (it : CronItem) {t : String} {v : StockResult}
    (h : lookupCache st.cache t = some v) :
    lookupCache (processItem resolve locks st it).1.cache t = some v := by
  unfold processItem
  cases hE : extractTcin it.product_url with
  | none => exact h
  | some tcin =>
    simp only []
    by_cases hl : locks it.id = true
    · rw [if_pos hl]
      cases hc : lookupCache st.cache tcin with
      | some r0 => exact h
      | none =>
        cases hr : resolve tcin with
        | ok r => exact lookupCache_append_some h _
        | error e => exact h
    · rw [if_neg hl]; exact h

theorem processItem_out (resolve : String → Except String StockResult) (locks : String → Bool)
    (st : CycleState) (it : CronItem) {v : StockResult}
    (h : (processItem resolve locks st it).2 = some v) :
    ∃ t, extractTcin it.product_url = some t ∧
      lookupCache (processItem resolve locks st it).1.cache t = some v := by
  unfold processItem at h ⊢
  cases hE : extractTcin it.product_url with
  | none => rw [hE] at h; simp at h
  | some tcin =>
    rw [hE] at h
    simp only [] at h ⊢
    by_cases hl : locks it.id = true
    · rw [if_pos hl] at h ⊢
      cases hc : lookupCache st.cache tcin with
      | some r0 =>
        rw [hc] at h
        have h' : r0 = v := by simpa using h
        exact ⟨tcin, rfl, by rw [← h']; exact hc⟩
      | none =>
        rw [hc] at h
        cases hr : resolve tcin with
        | ok r =>
          rw [hr] at h
          have h' : r = v := by simpa using h
          exact ⟨tcin, rfl, by rw [← h']; exact lookupCache_append_self _ hc⟩
        | error e =>
          rw [hr] at h
          simp at h
    · rw [if_neg hl] at h; simp at h

theorem processItem_keys_inv (resolve : String → Except String StockResult)
    (locks : String → Bool) (st : CycleState) (it : CronItem)
    (h : ∀ t, (st.cache.map Prod.fst).count t
      = (if (lookupCache st.cache t).isSome then 1 else 0)) :
    ∀ t, ((processItem resolve locks st it).1.cache.map Prod.fst).count t
      = (if (lookupCache (processItem resolve locks st it).1.cache t).isSome then 1 else 0) := by
  unfold processItem
  cases hE : extractTcin it.product_url with
  | none => exact h
  | some tcin =>
    simp only []
    by_cases hl : locks it.id = true
    · simp only [if_pos hl]
      cases hc : lookupCache st.cache tcin with
      | some r0 => exact h
      | none =>
        cases hr : resolve tcin with
        | error e => exact h
        | ok r =>
          intro t
          simp only [List.map_append, List.count_append]
          by_cases ht : (t == tcin) = true
          · have htt : t = tcin := by simpa using ht
            subst htt
            rw [lookupCache_append_self _ hc]
            have h0 := h t
            rw [hc] at h0
            simp only [Option.isSome_none, Bool.false_eq_true, if_neg, not_false_iff] at h0
            simp [h0, List.count_cons]
          · have htt : ¬ t = tcin := by simpa using ht
            have hk : (tcin == t) = false :=
              beq_eq_false_iff_ne.mpr (fun hs => htt hs.symm)
            rw [lookupCache_append_other _ hk]
            have h0 := h t
            simp [List.count_cons, List.count_nil, ht, h0, Ne.symm htt]
    · simp only [if_neg hl]; exact h

theorem processItem_calls_inv (resolve : String → Except String StockResult)
    (locks : String → Bool) (st : CycleState) (it : CronItem)
    (hok : ∀ u, (resolve u).isOk = true)
    (h : ∀ t, st.upstreamCalls.count t
      = (if (lookupCache st.cache t).isSome then 1 else 0)) :
    ∀ t, (processItem resolve locks st it).1.upstreamCalls.count t
      = (if (lookupCache (processItem resolve locks st it).1.cache t).isSome then 1 else 0) := by
  unfold processItem
  cases hE : extractTcin it.product_url with
  | none => exact h
  | some tcin =>
    simp only []
    by_cases hl : locks it.id = true
    · simp only [if_pos hl]
      cases hc : lookupCache st.cache tcin with
      | some r0 => exact h
      | none =>
        cases hr : resolve tcin with
        | error e =>
          exfalso
          have h1 := hok tcin
          rw [hr] at h1
          simp [Except.isOk, Except.toBool] at h1
        | ok r =>
          intro t
          simp only [List.count_append]
          by_cases ht : (t == tcin) = true
          · have htt : t = tcin := by simpa using ht
            subst htt
            rw [lookupCache_append_self _ hc]
            have h0 := h t
            rw [hc] at h0
            simp only [Option.isSome_none, Bool.false_eq_true, if_neg, not_false_iff] at h0
            simp [h0, List.count_cons]
          · have htt : ¬ t = tcin := by simpa using ht
            have hk : (tcin == t) = false :=
              beq_eq_false_iff_ne.mpr (fun hs => htt hs.symm)
            rw [lookupCache_append_other _ hk]
            have h0 := h t
            simp [List.count_cons, List.count_nil, ht, h0, Ne.symm htt]
    · simp only [if_neg hl]; exact h

theorem runCycleAux_mono (resolve : String → Except String StockResult) (locks : String → Bool)
    (items : List CronItem) :
    ∀ (st : CycleState) {t : String} {v : StockResult},
      lookupCache st.cache t = some v →
      lookupCache (runCycleAux resolve locks items st).1.cache t = some v := by
  induction items with
  | nil => intro st t v h; exact h
  | cons it rest ih =>
    intro st t v h
    exact ih _ (processItem_mono resolve locks st it h)

theorem runCycleAux_keys_inv (resolve : String → Except String StockResult)
    (locks : String → Bool) (items : List CronItem) :
    ∀ (st : CycleState),
      (∀ t, (st.cache.map Prod.fst).count t
        = (if (lookupCache st.cache t).isSome then 1 else 0)) →
      ∀ t, ((runCycleAux resolve locks items st).1.cache.map Prod.fst).count t
        = (if (lookupCache (runCycleAux resolve locks items st).1.cache t).isSome
           then 1 else 0) := by
  induction items with
  | nil => intro st h; exact h
  | cons it rest ih =>
    intro st h
    exact ih _ (processItem_keys_inv resolve locks st it h)

theorem runCycleAux_calls_inv (resolve : String → Except String StockResult)
    (locks : String → Bool) (items : List CronItem)
    (hok : ∀ u, (resolve u).isOk = true) :
    ∀ (st : CycleState),
      (∀ t, st.upstreamCalls.count t = (if (lookupCache st.cache t).isSome then 1 else 0)) →
      ∀ t, (runCycleAux resolve locks items st).1.upstreamCalls.count t
        = (if (lookupCache (runCycleAux resolve locks items st).1.cache t).isSome
           then 1 else 0) := by
  induction items with
  | nil => intro st h; exact h
  | cons it rest ih =>
    intro st h
    exact ih _ (processItem_calls_inv resolve locks st it hok h)

theorem runCycleAux_out (resolve : String → Except String StockResult) (locks : String → Bool)
    (items : List CronItem) :
    ∀ (st : CycleState) (it : CronItem) (v : StockResult),
      (it, some v) ∈ (runCycleAux resolve locks items st).2 →
      ∃ t, extractTcin it.product_url = some t ∧
        lookupCache (runCycleAux resolve locks items st).1.cache t = some v := by
  induction items with
  | nil => intro st it v h; simp [runCycleAux] at h
  | cons it0 rest ih =>
    intro st it v h
    have hmem : (it, some v) ∈
        ((it0, (processItem resolve locks st it0).2)
          :: (runCycleAux resolve locks rest (processItem resolve locks st it0).1).2) := h
    rcases List.mem_cons.mp hmem with h' | h'
    · rw [Prod.mk.injEq] at h'
      obtain ⟨hit, hv⟩ := h'
      obtain ⟨t, hE, hl⟩ := processItem_out resolve locks st it0 hv.symm
      refine ⟨t, ?_, ?_⟩
      · rw [hit]; exact hE
      · exact runCycleAux_mono resolve locks rest _ hl
    · obtain ⟨t, hE, hl⟩ := ih _ it v h'
      exact ⟨t, hE, hl⟩

/-- C7 counterexample: when a locator's resolution throws (both endpoints
down), the per-item catch leaves the TCIN uncached, so the next item with
the same locator in the same cycle queries upstream again - two upstream
calls for one locator in one cycle, refuting the at-most-once claim. -/
theorem c7_requery_on_failure_counterexample :
    itW1.product_url = itW2.product_url ∧
    (runCycle resolveFailW locksW [itW1, itW2]).1.upstreamCalls = [("111"), ("111")] ∧
    ¬ ((runCycle resolveFailW locksW [itW1, itW2]).1.upstreamCalls.count ("111") ≤ 1) := by
  refine ⟨rfl, by decide, by decide⟩

/-- C7 amended: within one cycle, any two items that obtain snapshots for
the same locator obtain the identical cached snapshot; each locator is
resolved successfully (and so cached) at most once per cycle; and when no
resolution throws during the cycle, upstream is queried at most once per
locator.  A thrown resolution, however, leaves its locator uncached and a
later same-locator item re-queries upstream (see the counterexample). -/
theorem c7_cycle_dedup (resolve : String → Except String StockResult) (locks : String → Bool)
    (items : List CronItem) (it1 it2 : CronItem) (r1 r2 : StockResult)
    (h1 : (it1, some r1) ∈ (runCycle resolve locks items).2)
    (h2 : (it2, some r2) ∈ (runCycle resolve locks items).2)
    (hurl : it1.product_url = it2.product_url) :
    r1 = r2 ∧
    (∀ t, ((runCycle resolve locks items).1.cache.map Prod.fst).count t ≤ 1) ∧
    ((∀ u, (resolve u).isOk = true) →
      ∀ t, (runCycle resolve locks items).1.upstreamCalls.count t ≤ 1) := by
  refine ⟨?_, ?_, ?_⟩
  · obtain ⟨t1, hE1, hl1⟩ := runCycleAux_out resolve locks items _ it1 r1 h1
    obtain ⟨t2, hE2, hl2⟩ := runCycleAux_out resolve locks items _ it2 r2 h2
    rw [hurl] at hE1
    rw [hE2] at hE1
    have ht : t2 = t1 := Option.some.inj hE1
    rw [ht] at hl2
    rw [hl1] at hl2
    exact Option.some.inj hl2
  · intro t
    unfold runCycle
    rw [runCycleAux_keys_inv resolve locks items { cache := [], upstreamCalls := [] }
      (by intro t'; simp [lookupCache]) t]
    split <;> omega
  · intro hok t
    unfold runCycle
    rw [runCycleAux_calls_inv resolve locks items hok { cache := [], upstreamCalls := [] }
      (by intro t'; simp [lookupCache]) t]
    split <;> omega

/-- C7 amended witness: two items of one user sharing a locator, resolved
without failures in one cycle, get the same snapshot, the locator is cached
once, and upstream is called at most once per locator. -/
theorem c7_cycle_dedup_witness :
    ((itW1, some snapW) ∈ (runCycle resolveW locksW [itW1, itW2]).2) ∧
    ((itW2, some snapW) ∈ (runCycle resolveW locksW [itW1, itW2]).2) ∧
    (itW1.product_url = itW2.product_url) ∧
    (∀ u, (resolveW u).isOk = true) ∧
    (snapW = snapW ∧
     (∀ t, ((runCycle resolveW locksW [itW1, itW2]).1.cache.map Prod.fst).count t ≤ 1) ∧
     (∀ t, (runCycle resolveW locksW [itW1, itW2]).1.upstreamCalls.count t ≤ 1)) := by
  refine ⟨by decide, by decide, rfl, fun u => rfl, ?_⟩
  obtain ⟨ha, hb, hc⟩ :=
    c7_cycle_dedup resolveW locksW [itW1, itW2] itW1 itW2 snapW snapW
      (by decide) (by decide) rfl
  exact ⟨ha, hb, hc (fun u => rfl)⟩
